import Mathlib

/-!
Shallow embedding of the animanga maubot plugin (src/animanga/animanga.py and
src/animanga/resources/datastructures.py), together with theorems settling the
behavioural claims about its normalization and rendering pipeline.

Conventions of the embedding:
* Python strings become `String`; nullable values become `Option`.
* Python truthiness is made explicit (`truthyI`, `truthyS`, `JVal.truthy`).
* Fallible dictionary access becomes `Except PyErr`; a raised `KeyError` or
  `TypeError` is an `Except.error` value.
* The stable `sorted(key=...)` builtin is modelled by `pySorted`, a stable
  insertion sort; its defining properties (sortedness, permutation,
  per-key-order preservation) are proved below.
-/

namespace AniManga


/-- Python truthiness of an optional integer (`None` and `0` are falsy). -/
def truthyI : Option Int → Bool
  | none => false
  | some n => n != 0

/-- Python truthiness of an optional string (`None` and `""` are falsy). -/
def truthyS : Option String → Bool
  | none => false
  | some s => s != ""

/-- Rendering of an optional string inside a Python f-string
(`None` prints as `"None"`). -/
def pyStr : Option String → String
  | none => "None"
  | some s => s

/-! ### Substring machinery on character lists -/

/-- `subPre p l` decides whether `p` is a leading segment of `l`. -/
def subPre : List Char → List Char → Bool
  | [], _ => true
  | _ :: _, [] => false
  | p :: ps, c :: cs => p == c && subPre ps cs

/-- `subContains pat l` decides whether `pat` occurs contiguously in `l`
(the model of the Python `in` operator on strings). -/
def subContains (pat : List Char) : List Char → Bool
  | [] => pat.isEmpty
  | c :: cs => subPre pat (c :: cs) || subContains pat cs

/-- Prefix of `l` strictly before the first occurrence of `pat`
(the model of Python `l.split(pat)[0]` for a non-empty `pat`). -/
def splitHead (pat : List Char) : List Char → List Char
  | [] => []
  | c :: cs => if subPre pat (c :: cs) then [] else c :: splitHead pat cs

/-- `occursStr pat s` : `pat` occurs contiguously in the string `s`. -/
def occursStr (pat s : String) : Bool := subContains pat.data s.data

/-! ### Stable sort (model of the Python `sorted` builtin) -/

/-- Insert `x` into `l` before the first element whose key is not smaller:
the insertion step of a stable insertion sort. -/
def sInsert {α : Type} (key : α → Nat) (x : α) : List α → List α
  | [] => [x]
  | y :: ys => if key x ≤ key y then x :: y :: ys else y :: sInsert key x ys

/-- Stable sort by an integer key: the model of Python `sorted(l, key=...)`.
Its sortedness, permutation and stability properties are proved below, which
justifies it as a model of any stable sort. -/
def pySorted {α : Type} (key : α → Nat) : List α → List α
  | [] => []
  | x :: xs => sInsert key x (pySorted key xs)

/-! ### Python `str.title()` -/

/-- Helper for `pyTitle`: the flag records whether the previous character was
alphabetic. -/
def pyTitleAux : Bool → List Char → List Char
  | _, [] => []
  | prevAlpha, c :: cs =>
    if c.isAlpha then
      (if prevAlpha then c.toLower else c.toUpper) :: pyTitleAux true cs
    else
      c :: pyTitleAux false cs

/-- Model of Python `str.title()`: the first letter of every maximal
alphabetic run is upper-cased and the rest lower-cased. -/
def pyTitle (s : String) : String := ⟨pyTitleAux false s.data⟩

/-! ### Lookup tables from resources/datastructures.py -/

/-- `media_formats` table. -/
def media_formats : List (String × String) :=
  [("TV", "TV Show"), ("TV_SHORT", "TV Short"), ("MOVIE", "Movie"),
   ("SPECIAL", "Special"), ("OVA", "OVA"), ("ONA", "ONA"), ("MUSIC", "Music"),
   ("MANGA", "Manga"), ("NOVEL", "Novel"), ("ONE_SHOT", "One Shot")]

/-- `statuses` table. -/
def statuses : List (String × String) :=
  [("FINISHED", "Finished"), ("RELEASING", "Releasing"),
   ("NOT_YET_RELEASED", "Not Yet Released"), ("CANCELLED", "Cancelled"),
   ("HIATUS", "Hiatus")]

/-- `seasons` table. -/
def seasons : List (String × String) :=
  [("WINTER", "Winter"), ("SPRING", "Spring"), ("SUMMER", "Summer"),
   ("FALL", "Fall")]

/-- `relation_types` table: kind, display label, sort priority. -/
def relation_types : List (String × String × Nat) :=
  [("ADAPTATION", "Adaptation", 0), ("PREQUEL", "Prequel", 1),
   ("SEQUEL", "Sequel", 2), ("PARENT", "Parent", 3),
   ("SIDE_STORY", "Side Story", 4), ("SPIN_OFF", "Spin Off", 5),
   ("ALTERNATIVE", "Alternative", 6), ("SUMMARY", "Summary", 7),
   ("SOURCE", "Source", 8), ("COMPILATION", "Compilation", 9),
   ("OTHER", "Other", 10), ("CONTAINS", "Contains", 11),
   ("CHARACTER", "Character", 12)]

/-- `months` table: month number to three-letter English abbreviation. -/
def months : List (Int × String) :=
  [(1, "Jan"), (2, "Feb"), (3, "Mar"), (4, "Apr"), (5, "May"), (6, "Jun"),
   (7, "Jul"), (8, "Aug"), (9, "Sep"), (10, "Oct"), (11, "Nov"), (12, "Dec")]

/-- `dict.get` on an association-list table. -/
def tblGet {β : Type} (tbl : List (String × β)) (k : String) : Option β :=
  (tbl.find? (fun p => p.1 == k)).map (·.2)

/-! ### JSON values and Python runtime errors -/

/-- A parsed JSON value, as handed to the parsing coroutines. -/
inductive JVal where
  | jnull
  | jbool (b : Bool)
  | jnum (n : Int)
  | jstr (s : String)
  | jarr (elems : List JVal)
  | jobj (fields : List (String × JVal))

/-- A raised Python exception, by class and offending key/message. -/
inductive PyErr where
  | keyError (k : String)
  | typeError (msg : String)
  | attributeError (msg : String)

/-- Python truthiness of a JSON value. -/
def JVal.truthy : JVal → Bool
  | .jnull => false
  | .jbool b => b
  | .jnum n => n != 0
  | .jstr s => s != ""
  | .jarr l => !l.isEmpty
  | .jobj l => !l.isEmpty

/-- `v.get(k, None)`: `None` default when the key is absent; raises
`AttributeError` on a non-dict receiver. -/
def JVal.getAttr (v : JVal) (k : String) : Except PyErr (Option JVal) :=
  match v with
  | .jobj fs => .ok ((fs.find? (fun p => p.1 == k)).map (·.2))
  | _ => .error (.attributeError k)

/-- `v[k]` subscript: raises `KeyError` on a missing key and `TypeError` on a
non-dict receiver. -/
def JVal.sub (v : JVal) (k : String) : Except PyErr JVal :=
  match v with
  | .jobj fs =>
    match fs.find? (fun p => p.1 == k) with
    | some p => .ok p.2
    | none => .error (.keyError k)
  | _ => .error (.typeError k)

/-- Coerce a JSON value at an `int`-annotated position. -/
def JVal.asInt : JVal → Except PyErr Int
  | .jnum n => .ok n
  | _ => .error (.typeError "int expected")

/-- Coerce a JSON value at an `int | None`-annotated position. -/
def JVal.asOptInt : JVal → Except PyErr (Option Int)
  | .jnull => .ok none
  | .jnum n => .ok (some n)
  | _ => .error (.typeError "int or null expected")

/-- Coerce a JSON value at a `str`-annotated position. -/
def JVal.asStr : JVal → Except PyErr String
  | .jstr s => .ok s
  | _ => .error (.typeError "str expected")

/-- Coerce a JSON value at a `str | None`-annotated position. -/
def JVal.asOptStr : JVal → Except PyErr (Option String)
  | .jnull => .ok none
  | .jstr s => .ok (some s)
  | _ => .error (.typeError "str or null expected")

/-- Coerce a JSON value at a list-annotated position. -/
def JVal.asArr : JVal → Except PyErr (List JVal)
  | .jarr l => .ok l
  | _ => .error (.typeError "list expected")

/-! ### Data structures (resources/datastructures.py) -/

/-- `SearchResult` dataclass.  Nullable API fields are `Option`s. -/
structure SearchResult where
  id : Int
  id_mal : Option Int
  title_en : Option String
  title_ro : Option String
  media_type : String
deriving DecidableEq

/-- `AniMangaData` dataclass.  Nullable API fields are `Option`s; the Python
`set` of studios is modelled as a duplicate-free list of (name, id) pairs and
the empty trailer tuple `()` as `none`. -/
structure AniMangaData where
  id : Int
  id_mal : Option Int
  title_ro : Option String
  title_en : Option String
  title_ja : Option String
  type : Option String
  image : Option String
  start_date : String
  end_date : String
  description : String
  average_score : Option Int
  mean_score : Option Int
  votes : Int
  favorites : Option Int
  nsfw : Bool
  format : Option String
  status : Option String
  genres : List String
  tags : List String
  relations : List (String × SearchResult)
  links : List (String × String)
  episodes : Option Int
  season : Option String
  season_year : Option Int
  next_episode_num : Option Int
  next_episode_date : Option String
  duration : Option Int
  studios : List (String × Int)
  studio_number : Int
  volumes : Option Int
  chapters : Option Int
  trailer : Option (String × String)
deriving DecidableEq

/-- One raw relation edge, with its node already extracted in typed form. -/
structure RelationEdge where
  relationType : String
  node : SearchResult
deriving DecidableEq

/-- One raw studio edge. -/
structure StudioEdge where
  isMain : Bool
  name : String
  id : Int
deriving DecidableEq

/-! ### Configuration (Config.do_update, _get_max_value) -/

/-- The configuration keys copied by `Config.do_update`. -/
def config_keys : List String := ["max_results", "max_relations"]

/-- A value stored in the configuration: an integer or a free-form string. -/
inductive ConfigVal where
  | num (n : Int)
  | str (s : String)

/-- Digit-string value, or `none` when not a non-empty run of digits. -/
def digitsVal (l : List Char) : Option Nat :=
  if l ≠ [] ∧ l.all (·.isDigit) then
    some (l.foldl (fun a c => a * 10 + (c.toNat - 48)) 0)
  else none

/-- Model of Python `int(s)` for a string `s`: surrounding whitespace is
ignored, an optional sign precedes a non-empty digit run; anything else
raises `ValueError` (`none` here).  Digit-group underscores are not
modelled. -/
def pyIntParse (s : String) : Option Int :=
  let l := ((s.data.dropWhile (·.isWhitespace)).reverse.dropWhile
    (·.isWhitespace)).reverse
  match l with
  | '+' :: rest => (digitsVal rest).map Int.ofNat
  | '-' :: rest => (digitsVal rest).map (fun n => -(n : Int))
  | rest => (digitsVal rest).map Int.ofNat

/-- Model of Python `int(v)` on a stored configuration value. -/
def pyIntOf : ConfigVal → Option Int
  | .num n => some n
  | .str s => pyIntParse s

/-- `_get_max_value`: clamp the configured value to at least 1; on a
`ValueError` log once and fall back to the default.  Returns the effective
value together with whether an error was logged. -/
def get_max_value (stored : Option ConfigVal) (default : Int) : Int × Bool :=
  match pyIntOf (stored.getD (.num default)) with
  | some n => (max 1 n, false)
  | none => (default, true)

/-- `get_max_results`: configured maximum search results, default 4. -/
def get_max_results (stored : Option ConfigVal) : Int × Bool :=
  get_max_value stored 4

/-- `get_max_relations`: configured maximum displayed relations, default 4. -/
def get_max_relations (stored : Option ConfigVal) : Int × Bool :=
  get_max_value stored 4

/-! ### Detail normalizer helpers -/

/-- Sort priority of a relation kind: table entry, or the table size (13)
for a kind absent from the table (`relation_types.get(k, ("", len))[1]`). -/
def relPriorityK (k : String) : Nat :=
  match tblGet relation_types k with
  | some p => p.2
  | none => relation_types.length

/-- Display label of a relation kind: table entry, or the title-cased raw
kind string (`relation_types.get(k, [k.title()])[0]`). -/
def relLabelK (k : String) : String :=
  match tblGet relation_types k with
  | some p => p.1
  | none => pyTitle k

/-- Map a sorted relation edge to its output pair (label, node). -/
def relEntry (e : RelationEdge) : String × SearchResult :=
  (relLabelK e.relationType, e.node)

/-- `_parse_relations`: stable-sort the edges ascending by kind priority and
map each to its (label, node) pair.  (The source converts each edge dict to a
`SearchResult` after sorting; sorting typed edges first is observably the
same because the sort key depends only on `relationType`.) -/
def parse_relations (edges : List RelationEdge) : List (String × SearchResult) :=
  (pySorted (fun e => relPriorityK e.relationType) edges).map relEntry

/-- Description trim of `_parse_desctiption`: cut at `"Notes:"` when that
substring occurs, otherwise split on `"Note:"` (which leaves the string
unchanged when neither occurs). -/
def trimDesc (s : String) : String :=
  let sep : String := if subContains "Notes:".data s.data then "Notes:" else "Note:"
  ⟨splitHead sep.data s.data⟩

/-- Field-level `_parse_desctiption`: a falsy description yields `""`. -/
def parse_desctiption_fields (desc : Option String) : String :=
  match desc with
  | none => ""
  | some s => if s != "" then trimDesc s else ""

/-- `months.get(n)`. -/
def monthsGet (n : Int) : Option String :=
  (months.find? (fun p => p.1 == n)).map (·.2)

/-- Field-level `_parse_date`: each truthy component is rendered followed by
a space, except the year; a truthy month outside the table raises
(`months.get(month) + " "` on `None`). -/
def parse_date_fields (day mon yr : Option Int) : Except PyErr String := do
  let dayS := if truthyI day then toString (day.getD 0) ++ " " else ""
  let monS ←
    if truthyI mon then
      match monthsGet (mon.getD 0) with
      | some ab => Except.ok (ab ++ " ")
      | none => Except.error (.typeError "unsupported operand type for +")
    else Except.ok ""
  let yrS := if truthyI yr then toString (yr.getD 0) else ""
  return dayS ++ monS ++ yrS

/-- `_parse_date` on the JSON payload. -/
def parse_date (data : JVal) (key : String) : Except PyErr String := do
  let d ← data.sub key
  let day ← (← d.sub "day").asOptInt
  let mon ← (← d.sub "month").asOptInt
  let yr ← (← d.sub "year").asOptInt
  parse_date_fields day mon yr

/-- `_parse_desctiption` on the JSON payload. -/
def parse_desctiption (data : JVal) : Except PyErr String := do
  let d ← data.sub "description"
  match d with
  | .jstr s => return parse_desctiption_fields (some s)
  | .jnull => return parse_desctiption_fields none
  | v =>
    if v.truthy then Except.error (.typeError "argument of type is not str")
    else return ""

/-- Vote aggregation: sum of the `amount` of every score-distribution
bucket; a missing histogram defaults to the empty list. -/
def parse_votes (stats : JVal) : Except PyErr Int := do
  let sdOpt ← stats.getAttr "scoreDistribution"
  match sdOpt with
  | none => return 0
  | some sd => do
    let l ← sd.asArr
    let amounts ← l.mapM (fun e => do (← e.sub "amount").asInt)
    return amounts.sum

/-- Core of `_parse_studios` on typed edges: the deduplicated set of
main-flagged (name, id) pairs, or the first edge when no edge is main;
`studio_number` is the total edge count minus the selected set size. -/
def parse_studios : List StudioEdge → List (String × Int) × Int
  | [] => ([], 0)
  | e :: rest =>
    let edges := e :: rest
    let mains := ((edges.filter (fun s => s.isMain)).map
      (fun s => (s.name, s.id))).dedup
    let studios := if mains.isEmpty then [(e.name, e.id)] else mains
    (studios, (edges.length : Int) - (studios.length : Int))

/-- One studio edge from JSON (`studio["isMain"]`, `node.get("name", "")`,
`node.get("id", 0)`). -/
def parseStudioEdge (e : JVal) : Except PyErr StudioEdge := do
  let im ← e.sub "isMain"
  let node ← e.sub "node"
  let name ← ((← node.getAttr "name").getD (.jstr "")).asStr
  let sid ← ((← node.getAttr "id").getD (.jnum 0)).asInt
  return { isMain := im.truthy, name := name, id := sid }

/-- `_parse_studios` on the JSON payload; a falsy edge list yields the empty
set and count 0. -/
def parse_studios_j (data : JVal) : Except PyErr (List (String × Int) × Int) := do
  let edgesJ ← (← data.sub "studios").sub "edges"
  if edgesJ.truthy then
    let l ← edgesJ.asArr
    let edges ← l.mapM parseStudioEdge
    return parse_studios edges
  else
    return ([], 0)

/-- Local-timezone
`datetime.fromtimestamp(t).strftime("%A, %-d %b %Y, %H:%M")`: wall-clock
rendering depends on the host timezone database and is outside the
embedding, so the timestamp is kept verbatim as the formatted value.  No
claim below depends on this text. -/
def strftimeAiring (t : Int) : String := toString t

/-- `_parse_next_airing_episode`: a formatted date only when a next airing
episode exists and carries a truthy `airingAt` timestamp. -/
def parse_next_airing_episode (data : JVal) : Except PyErr (Option String) := do
  let nae ← data.sub "nextAiringEpisode"
  if nae.truthy then
    let a := (← nae.getAttr "airingAt").getD (.jnum 0)
    if a.truthy then
      let t ← a.asInt
      return some (strftimeAiring t)
    else return none
  else return none

/-- `dict.get(k, k)`-style lookup of a human label
(`media_formats.get(data["format"], data["format"])` and the analogous
`statuses`/`seasons` lookups). -/
def parseLabelTable (tbl : List (String × String)) (v : JVal) :
    Except PyErr (Option String) :=
  match v with
  | .jnull => .ok none
  | .jstr s => .ok (some ((tblGet tbl s).getD s))
  | _ => .error (.typeError "unexpected key type")

/-- `data["genres"]` is stored unchanged; a null list is modelled as `[]`,
which is rendering-equivalent (both falsy, never indexed). -/
def parseStrList (v : JVal) : Except PyErr (List String) :=
  match v with
  | .jnull => .ok []
  | .jarr l => l.mapM JVal.asStr
  | _ => .error (.typeError "list or null expected")

/-- One relation edge from JSON, with its node converted to a
`SearchResult` as in `_parse_relations`. -/
def parseRelationEdge (rel : JVal) : Except PyErr RelationEdge := do
  let rt ← (← rel.sub "relationType").asStr
  let node ← rel.sub "node"
  let nid ← (← node.sub "id").asInt
  let nmal ← (← node.sub "idMal").asOptInt
  let ntitle ← node.sub "title"
  let en ← ((← ntitle.getAttr "english").getD (.jstr "")).asOptStr
  let ro ← ((← ntitle.getAttr "romaji").getD (.jstr "")).asOptStr
  let ty ← (← node.sub "type").asStr
  return { relationType := rt,
           node := { id := nid, id_mal := nmal, title_en := en,
                     title_ro := ro, media_type := ty } }

/-- The `data["data"]["Media"]` normalization body of
`_al_parse_main_result`: every field of the returned `AniMangaData`,
including the kind-conditional anime/manga groups. -/
def parseMedia (cfg : Option ConfigVal) (media : JVal) :
    Except PyErr AniMangaData := do
  let relRaw ← (← (← media.sub "relations").sub "edges").asArr
  let edges ← relRaw.mapM parseRelationEdge
  let relations := parse_relations edges
  let id ← (← media.sub "id").asInt
  let id_mal ← (← media.sub "idMal").asOptInt
  let title ← media.sub "title"
  let title_ro ← ((← title.getAttr "romaji").getD (.jstr "")).asOptStr
  let title_en ← ((← title.getAttr "english").getD (.jstr "")).asOptStr
  let title_ja ← ((← title.getAttr "native").getD (.jstr "")).asOptStr
  let ty ← (← media.sub "type").asOptStr
  let image ← ((← (← media.sub "coverImage").getAttr "large").getD
    (.jstr "")).asOptStr
  let start_date ← parse_date media "startDate"
  let end_date ← parse_date media "endDate"
  let description ← parse_desctiption media
  let average_score ← (← media.sub "averageScore").asOptInt
  let mean_score ← (← media.sub "meanScore").asOptInt
  let votes ← parse_votes (← media.sub "stats")
  let favorites ← (← media.sub "favourites").asOptInt
  let nsfwJ ← media.sub "isAdult"
  let format ← parseLabelTable media_formats (← media.sub "format")
  let status ← parseLabelTable statuses (← media.sub "status")
  let genres ← parseStrList (← media.sub "genres")
  let tagsJ ← (← media.sub "tags").asArr
  let tagPairs ← tagsJ.mapM (fun t => do
    let name ← (← t.sub "name").asStr
    let sp ← t.sub "isMediaSpoiler"
    return (name, sp.truthy))
  let tags := (tagPairs.filter (fun t => !t.2)).map (·.1)
  let linksJ ← (← media.sub "externalLinks").asArr
  let links ← linksJ.mapM (fun l => do
    let site ← (← l.sub "site").asStr
    let url ← (← l.sub "url").asStr
    return (site, url))
  let base : AniMangaData :=
    { id := id, id_mal := id_mal, title_ro := title_ro, title_en := title_en,
      title_ja := title_ja, type := ty, image := image,
      start_date := start_date, end_date := end_date,
      description := description, average_score := average_score,
      mean_score := mean_score, votes := votes, favorites := favorites,
      nsfw := nsfwJ.truthy, format := format, status := status,
      genres := genres, tags := tags,
      relations := relations.take (get_max_relations cfg).1.toNat,
      links := links,
      episodes := none, season := none, season_year := none,
      next_episode_num := none, next_episode_date := none, duration := none,
      studios := [], studio_number := 0, volumes := none, chapters := none,
      trailer := none }
  if ty == some "ANIME" then
    let (studios, studio_number) ← parse_studios_j media
    let episodes ← (← media.sub "episodes").asOptInt
    let season ← parseLabelTable seasons (← media.sub "season")
    let season_year ← (← media.sub "seasonYear").asOptInt
    let nae ← media.sub "nextAiringEpisode"
    let next_episode_num ←
      if nae.truthy then ((← nae.getAttr "episode").getD (.jnum 0)).asOptInt
      else pure none
    let next_episode_date ← parse_next_airing_episode media
    let duration ← (← media.sub "duration").asOptInt
    let trailerJ ← media.sub "trailer"
    let trailer ←
      if trailerJ.truthy then do
        let site ← ((← trailerJ.getAttr "site").getD (.jstr "")).asStr
        let tid ← ((← trailerJ.getAttr "id").getD (.jstr "")).asStr
        pure (some (site, tid))
      else pure none
    return { base with
      episodes := episodes, season := season, season_year := season_year,
      next_episode_num := next_episode_num,
      next_episode_date := next_episode_date, duration := duration,
      studios := studios, studio_number := studio_number, trailer := trailer,
      volumes := some 0, chapters := some 0 }
  else
    let volumes ← (← media.sub "volumes").asOptInt
    let chapters ← (← media.sub "chapters").asOptInt
    return { base with
      episodes := some 0, season := some "", season_year := some 0,
      next_episode_num := some 0, next_episode_date := some "",
      duration := some 0, studios := [], studio_number := 0, trailer := none,
      volumes := volumes, chapters := chapters }

/-- `error.get("message", "")` on one envelope entry. -/
def errMessage (e : JVal) : Except PyErr String := do
  ((← e.getAttr "message").getD (.jstr "")).asStr

/-- `_al_parse_main_result`: a truthy error envelope is logged (the
`"; "`-joined messages) and yields `none`; otherwise the
`data["data"]["Media"]` payload is normalized.  The returned list holds the
error-severity log lines; a raised exception is `Except.error`. -/
def al_parse_main_result (cfg : Option ConfigVal) (data : JVal) :
    Except PyErr (List String × Option AniMangaData) := do
  let errsOpt ← data.getAttr "errors"
  if (errsOpt.getD .jnull).truthy then
    let errList ← (errsOpt.getD .jnull).asArr
    let msgs ← errList.mapM errMessage
    return (["Error parsing results: " ++ String.intercalate "; " msgs], none)
  else
    let media ← (← data.sub "data").sub "Media"
    let result ← parseMedia cfg media
    return ([], some result)

/-- `_al_parse_results`: error envelopes are logged and flattened to the
empty result list; otherwise one `SearchResult` per page entry.  (The source
leaves `media_type` at its dataclass default, which is never read for search
results; it is modelled as `""`.) -/
def al_parse_results (data : JVal) :
    Except PyErr (List String × List SearchResult) := do
  let errsOpt ← data.getAttr "errors"
  if (errsOpt.getD .jnull).truthy then
    let errList ← (errsOpt.getD .jnull).asArr
    let msgs ← errList.mapM errMessage
    return (["Error parsing results: " ++ String.intercalate "; " msgs], [])
  else
    let page ← (← (← data.sub "data").sub "Page").sub "media"
    let l ← page.asArr
    let results ← l.mapM (fun r => do
      let id ← (← r.sub "id").asInt
      let mal ← (← r.sub "idMal").asOptInt
      let ro ← (← (← r.sub "title").sub "romaji").asOptStr
      let en ← (← (← r.sub "title").sub "english").asOptStr
      return ({ id := id, id_mal := mal, title_ro := ro, title_en := en,
                media_type := "" } : SearchResult))
    return ([], results)

/-! ### Dual-format renderer -/

/-- Rendering of an optional integer inside a Python f-string. -/
def pyStrI : Option Int → String
  | none => "None"
  | some n => toString n

/-- Fuel-driven core of `pyReplace`; the fuel is the input length, so it
never runs out. -/
def replaceFuel (pat rep : List Char) : Nat → List Char → List Char
  | _, [] => []
  | 0, l => l
  | fuel + 1, c :: cs =>
    if pat ≠ [] ∧ pat.isPrefixOf (c :: cs) then
      rep ++ replaceFuel pat rep fuel ((c :: cs).drop pat.length)
    else c :: replaceFuel pat rep fuel cs

/-- Model of Python `s.replace(pat, rep)` for a non-empty `pat`:
left-to-right, non-overlapping replacement of every occurrence. -/
def pyReplace (s pat rep : String) : String :=
  ⟨replaceFuel pat.data rep.data s.data.length s.data⟩

/-- `_get_link`: an anchor tag in HTML mode, a Markdown link otherwise. -/
def get_link (url text : String) (is_html : Bool) : String :=
  if is_html then "<a href=\"" ++ url ++ "\">" ++ text ++ "</a>"
  else "[" ++ text ++ "](" ++ url ++ ")"

/-- The lowercased media kind used in catalog URLs
(`data.type.lower() if data.type else "anime"`). -/
def mediaTypeUrl (data : AniMangaData) : String :=
  if truthyS data.type then (pyStr data.type).toLower else "anime"

/-- The display title: English if truthy, else romaji
(`data.title_en if data.title_en else data.title_ro`). -/
def displayTitle (data : AniMangaData) : String :=
  pyStr (if truthyS data.title_en then data.title_en else data.title_ro)

/-- `_get_titles`: heading with catalog link, optional MAL cross-reference
and optional adult marker. -/
def get_titles (data : AniMangaData) (is_html : Bool) : String :=
  let media_type := mediaTypeUrl data
  let title := displayTitle data
  let al_url := "https://anilist.co/" ++ media_type ++ "/" ++ toString data.id
  let mal_url := "https://myanimelist.net/" ++ media_type ++ "/" ++
    pyStrI data.id_mal
  if is_html then
    "<h3>" ++ get_link al_url title true ++
    (if truthyI data.id_mal then
      " <sup>(" ++ get_link mal_url "MAL" true ++ ")</sup>" else "") ++
    (if data.nsfw then " 🔞" else "") ++ "</h3>"
  else
    "> ### " ++ get_link al_url title false ++
    (if truthyI data.id_mal then
      " (" ++ get_link mal_url "MAL" false ++ ")" else "") ++
    (if data.nsfw then " 🔞" else "") ++ "  \n>  \n"

/-- Decimal rendering of the non-negative tenth `n/10`. -/
def showTenthsNat (n : Nat) : String :=
  toString (n / 10) ++ "." ++ toString (n % 10)

/-- Rendering of the Python float `float(n)/10` (`str` of one decimal digit)
on the score range. -/
def showTenths (n : Int) : String :=
  if n < 0 then "-" ++ showTenthsNat (-n).toNat else showTenthsNat n.toNat

/-- The local `score` variable of `_get_score`, kept as tenths: the average
score when truthy, else the mean score when truthy, else `None`. -/
def scoreTenths (data : AniMangaData) : Option Int :=
  if truthyI data.average_score then some (data.average_score.getD 0)
  else if truthyI data.mean_score then some (data.mean_score.getD 0)
  else none

/-- `_get_score`: score line with optional vote and favorite counts. -/
def get_score (data : AniMangaData) (is_html : Bool) : String :=
  match scoreTenths data with
  | none => ""
  | some n =>
    if n == 0 then ""  -- the float 0.0 is falsy (unreachable: sources truthy)
    else
      let vote_data := "⭐ " ++ showTenths n ++ "/10"
      let vote_data :=
        if data.votes != 0 then
          vote_data ++ " | 👤 " ++ toString data.votes ++ " votes"
        else vote_data
      let vote_data :=
        if truthyI data.favorites then
          vote_data ++ " | ❤️ " ++ toString (data.favorites.getD 0) ++
            " favorites"
        else vote_data
      if is_html then
        "<blockquote><b>Score:</b> " ++ vote_data ++ "</blockquote>"
      else "> > **Score**: " ++ vote_data ++ "  \n>  \n"

/-- `_get_desctiption`: description with collapsed paragraph breaks. -/
def get_desctiption (data : AniMangaData) (is_html : Bool) : String :=
  if data.description != "" then
    let description := pyReplace data.description "<br><br>" "<br>"
    if is_html then "<p>" ++ description ++ "</p>"
    else
      "> " ++
      pyReplace (pyReplace (pyReplace description "\r" "") "\n" "")
        "<br>" "  \n>" ++ "  \n>  \n"
  else ""

/-- `_get_image`: an `img` tag (zero dimensions omitted) or Markdown image. -/
def get_image (src alt : String) (size : Int × Int) (is_html : Bool) :
    String :=
  let width := if size.1 != 0 then "width=\"" ++ toString size.1 ++ "\" "
    else ""
  let height := if size.2 != 0 then "height=\"" ++ toString size.2 ++ "\" "
    else ""
  if is_html then
    "<img src=\"" ++ src ++ "\" alt=\"" ++ alt ++ "\" " ++ width ++ height ++
      "/>"
  else "![" ++ alt ++ "](" ++ src ++ ")"

/-- `_get_other_titles`: the alternative-titles line, rendered
unconditionally. -/
def get_other_titles (data : AniMangaData) (is_html : Bool) : String :=
  let other_titles :=
    (if truthyS data.title_en then pyStr data.title_ro ++ ", " else "") ++
      pyStr data.title_ja
  if is_html then
    "<blockquote><b>Other titles:</b> " ++ other_titles ++ "</blockquote>"
  else "> > **Other titles:** " ++ other_titles ++ "  \n>  \n"

/-- `_get_duration`: minutes in human-readable form. -/
def get_duration (time : Int) : String :=
  if time ≥ 60 then
    let hours := time / 60
    let minutes := time % 60
    let duration := toString hours ++ " h"
    if minutes != 0 then duration ++ " " ++ toString minutes ++ " min"
    else duration
  else toString time ++ " min"

/-- `_get_format`: format label with episode/volume/chapter summary. -/
def get_format (data : AniMangaData) (is_html : Bool) : String :=
  if truthyS data.format then
    let media_format := pyStr data.format
    let media_format :=
      if truthyI data.episodes then
        let media_format := media_format ++ " | " ++
          toString (data.episodes.getD 0) ++ " episode" ++
          (if data.episodes.getD 0 > 1 then "s" else "")
        if truthyI data.duration then
          media_format ++ " (" ++ get_duration (data.duration.getD 0) ++
            (if data.episodes.getD 0 > 1 then " per episode" else "") ++ ")"
        else media_format
      else media_format
    let media_format :=
      if truthyI data.volumes then
        media_format ++ " | " ++ toString (data.volumes.getD 0) ++ " volumes"
      else media_format
    let media_format :=
      if truthyI data.chapters then
        media_format ++ " | " ++ toString (data.chapters.getD 0) ++
          " chapters"
      else media_format
    if is_html then
      "<blockquote><b>Format:</b> " ++ media_format ++ "</blockquote>"
    else "> > **Format**: " ++ media_format ++ "  \n>  \n"
  else ""

/-- `_get_status_next_episode`: status line with optional broadcast info. -/
def get_status_next_episode (data : AniMangaData) (is_html : Bool) : String :=
  let broadcast :=
    if truthyI data.next_episode_num && truthyS data.next_episode_date then
      " | Episode " ++ toString (data.next_episode_num.getD 0) ++ " on " ++
        pyStr data.next_episode_date
    else ""
  if truthyS data.status then
    if is_html then
      "<blockquote><b>Status:</b> " ++ pyStr data.status ++ broadcast ++
        "</blockquote>"
    else "> > **Status:** " ++ pyStr data.status ++ broadcast ++ "  \n>  \n"
  else ""

/-- `_get_dates_season`: release range and season/year. -/
def get_dates_season (data : AniMangaData) (is_html : Bool) : String :=
  let released :=
    if data.start_date != "" then
      if data.start_date == data.end_date ||
          data.format == some ((tblGet media_formats "MOVIE").getD "") then
        data.start_date
      else
        data.start_date ++ " to " ++
          (if data.end_date != "" then data.end_date else "?")
    else ""
  let released :=
    if truthyS data.season && truthyI data.season_year then
      if released != "" then
        released ++ " | " ++ pyStr data.season ++ " " ++
          toString (data.season_year.getD 0)
      else pyStr data.season ++ " " ++ toString (data.season_year.getD 0)
    else released
  if released != "" then
    if is_html then
      "<blockquote><b>Released:</b> " ++ released ++ "</blockquote>"
    else "> > **Released:** " ++ released ++ "  \n>  \n"
  else ""

/-- `_get_studios`: studio links and secondary-studio count. -/
def get_studios (data : AniMangaData) (is_html : Bool) : String :=
  if !data.studios.isEmpty then
    let studios := String.intercalate ", " (data.studios.map (fun st =>
      get_link ("https://anilist.co/studio/" ++ toString st.2) st.1 is_html))
    let other_studios :=
      if data.studio_number != 0 then
        " + " ++ toString data.studio_number ++ " other" ++
          (if data.studio_number > 1 then "s" else "")
      else ""
    if is_html then
      "<blockquote><b>Studios:</b> " ++ studios ++ other_studios ++
        "</blockquote>"
    else "> > **Studios:** " ++ studios ++ other_studios ++ "  \n>  \n"
  else ""

/-- The section condition of `_get_links`
(`data.links or data.trailer and data.trailer[0] == "youtube" and
data.trailer[1]`). -/
def linksSectionCond (data : AniMangaData) : Bool :=
  !data.links.isEmpty ||
    (data.trailer.isSome && (data.trailer.getD ("", "")).1 == "youtube" &&
      (data.trailer.getD ("", "")).2 != "")

/-- `_get_links`: external links, with the trailer link placed first.  Note
that inside the section the trailer is rendered whenever the trailer tuple
is non-empty, without re-checking its site or id. -/
def get_links (data : AniMangaData) (is_html : Bool) : String :=
  if linksSectionCond data then
    let text := if is_html then "🎬 <b>TRAILER</b>" else "🎬 **TRAILER**"
    let links :=
      if data.trailer.isSome then
        get_link ("https://www.youtube.com/watch?v=" ++
          (data.trailer.getD ("", "")).2) text is_html
      else ""
    let links :=
      if !data.links.isEmpty then
        (if links != "" then links ++ ", " else links) ++
          String.intercalate ", " (data.links.map (fun l =>
            get_link l.2 l.1 is_html))
      else links
    if is_html then
      "<blockquote><b>External links:</b> " ++ links ++ "</blockquote>"
    else "> > **External links:** " ++ links ++ "  \n>  \n"
  else ""

/-- `_get_genres`: genre links. -/
def get_genres (data : AniMangaData) (is_html : Bool) : String :=
  let media_type := mediaTypeUrl data
  if !data.genres.isEmpty then
    let genres := String.intercalate ", " (data.genres.map (fun g =>
      get_link ("https://anilist.co/search/" ++ media_type ++ "/" ++
        pyReplace g " " "%20") g is_html))
    if is_html then
      "<blockquote><b>Genres:</b> " ++ genres ++ "</blockquote>"
    else "> > **Genres:** " ++ genres ++ "  \n>  \n"
  else ""

/-- `_get_tags`: tag links; there is no count-dependent branch. -/
def get_tags (data : AniMangaData) (is_html : Bool) : String :=
  let media_type := mediaTypeUrl data
  if !data.tags.isEmpty then
    let tags := String.intercalate ", " (data.tags.map (fun t =>
      get_link ("https://anilist.co/search/" ++ media_type ++ "?genres=" ++
        pyReplace t " " "%20") t is_html))
    if is_html then
      "<blockquote><b>Tags:</b> " ++ tags ++ "</blockquote>"
    else "> > **Tags:** " ++ tags ++ "  \n>  \n"
  else ""

/-- `_get_related_entries`: numbered related-entry links. -/
def get_related_entries (data : AniMangaData) (is_html : Bool) : String :=
  let header := if is_html then "<b>Related entries:</b>"
    else "> **Related entries:**  \n>  \n"
  if !data.relations.isEmpty then
    header ++ String.join (data.relations.enum.map (fun p =>
      let i := p.1
      let rel := p.2
      let base_url := rel.2.media_type.toLower
      let al_link := get_link
        ("https://anilist.co/" ++ base_url ++ "/" ++ toString rel.2.id)
        (pyStr (if truthyS rel.2.title_en then rel.2.title_en
          else rel.2.title_ro)) is_html
      let mal_link :=
        if truthyI rel.2.id_mal then
          get_link ("https://myanimelist.net/" ++ base_url ++ "/" ++
            toString (rel.2.id_mal.getD 0)) "MAL" is_html
        else ""
      if is_html then
        "<blockquote>[" ++ rel.1 ++ "]<br>" ++ toString (i + 1) ++ ". " ++
          al_link ++
          (if mal_link != "" then " <sup>(" ++ mal_link ++ ")</sup>"
            else "") ++ "</blockquote>"
      else
        "> > " ++ toString (i + 1) ++ ". " ++ al_link ++
          (if mal_link != "" then " (" ++ mal_link ++ ")" else "") ++
          " [" ++ rel.1 ++ "]  \n>  \n"))
  else ""

/-- `_get_other_results`: the remaining search candidates (the first is the
main result and is skipped). -/
def get_other_results (data : AniMangaData) (other : List SearchResult)
    (is_html : Bool) : String :=
  let media_type := mediaTypeUrl data
  let header := if is_html then "<b>Other results:</b>"
    else "> **Other results:**  \n>  \n"
  if other.length > 1 then
    header ++ String.join ((other.enum.drop 1).map (fun p =>
      let i := p.1
      let o := p.2
      let al_title := pyStr
        (if truthyS o.title_en then o.title_en else o.title_ro)
      let al_link := get_link
        ("https://anilist.co/" ++ media_type ++ "/" ++ toString o.id)
        al_title is_html
      let mal_link :=
        if truthyI o.id_mal then
          get_link ("https://myanimelist.net/" ++ media_type ++ "/" ++
            toString (o.id_mal.getD 0)) "MAL" is_html
        else ""
      if is_html then
        "<blockquote>" ++ toString i ++ ". " ++ al_link ++
          (if mal_link != "" then " <sup>(" ++ mal_link ++ ")</sup>"
            else "") ++ "</blockquote>"
      else
        "> > " ++ toString i ++ ". " ++ al_link ++
          (if mal_link != "" then " (" ++ mal_link ++ ")" else "") ++
          "  \n>  \n"))
  else ""

/-- The composite reply message: Markdown body and HTML formatted body. -/
structure TextMessageEventContent where
  body : String
  formatted_body : String
deriving DecidableEq

/-- `_prepare_message`: both bodies assembled section by section in the same
fixed order. -/
def prepare_message (data : AniMangaData) (other : List SearchResult) :
    TextMessageEventContent :=
  let main_col1 := get_titles data true
  let body := get_titles data false
  let main_col1 := main_col1 ++ get_score data true
  let body := body ++ get_score data false
  let main_col1 := main_col1 ++ get_desctiption data true
  let body := body ++ get_desctiption data false
  let main_col1 := "<td>" ++ main_col1 ++ "</td>"
  let title := displayTitle data
  let main_table :=
    if truthyS data.image then
      "<table><tr>" ++ main_col1 ++ "<td>" ++
        get_image (pyStr data.image) ("Poster for " ++ title) (0, 230) true ++
        "</td></tr></table>"
    else "<table><tr>" ++ main_col1 ++ "</tr></table>"
  let body :=
    if truthyS data.image then
      body ++ "> " ++
        get_image (pyStr data.image) ("Poster for " ++ title) (0, 230)
          false ++ "  \n>  \n"
    else body
  let details_content := get_other_titles data true
  let body := body ++ get_other_titles data false
  let details_content := details_content ++ get_format data true
  let body := body ++ get_format data false
  let details_content := details_content ++ get_status_next_episode data true
  let body := body ++ get_status_next_episode data false
  let details_content := details_content ++ get_dates_season data true
  let body := body ++ get_dates_season data false
  let details_content := details_content ++ get_studios data true
  let body := body ++ get_studios data false
  let details_content := details_content ++ get_links data true
  let body := body ++ get_links data false
  let details_content := details_content ++ get_genres data true
  let body := body ++ get_genres data false
  let details_content := details_content ++ get_tags data true
  let body := body ++ get_tags data false
  let details_table :=
    "<div>" ++ "<details><summary><b>DETAILS</b></summary>" ++
    "<table><tr><td>" ++ details_content ++ "</td></tr></table>" ++
    "</details>" ++ "</div>"
  let is_links := !data.relations.isEmpty || other.length > 1
  let bodyLinks :=
    if is_links then
      get_related_entries data false ++ get_other_results data other false
    else ""
  let links_table :=
    if is_links then
      "<div>" ++ "<details><summary><b>LINKS</b></summary>" ++
      "<table><tr>" ++
      ("<td>" ++ get_related_entries data true ++ "</td>") ++
      ("<td>" ++ get_other_results data other true ++ "</td>") ++
      "</tr></table>" ++ "</details>" ++ "</div>"
    else ""
  let body := body ++ bodyLinks ++ "> **Results from AniList**"
  let html :=
    "<blockquote>" ++ main_table ++ details_table ++ links_table ++
    "<p><b><sub>Results from AniList</sub></b></p>" ++ "</blockquote>"
  { body := body, formatted_body := html }

/-! ### Orchestrator (al_message_handler), after the network calls -/

/-- The user-visible outcome of one command invocation. -/
inductive Reply where
  | noResults (title : String)
  | fetchProblem (title : String)
  | summary (content : TextMessageEventContent)

/-- The pure tail of `al_message_handler`, given the two already-fetched API
responses and the external image-relocation collaborator: parse the search
page, stop on an empty result list, parse the detail payload, stop with a
user-visible failure when it yields no result, otherwise relocate the image
and send the summary. -/
def al_message_handler (cfg : Option ConfigVal) (title : String)
    (searchResp detailResp : JVal) (imageResolve : String → String) :
    Except PyErr Reply := do
  let (_, results) ← al_parse_results searchResp
  if results.isEmpty then
    return .noResults title
  else
    let (_, mainOpt) ← al_parse_main_result cfg detailResp
    match mainOpt with
    | none => return .fetchProblem title
    | some mr =>
      let mr :=
        if truthyS mr.image then
          { mr with image := some (imageResolve (pyStr mr.image)) }
        else mr
      return .summary (prepare_message mr results)

/-! ### Spec-side definitions used to compare against the source -/

/-- Join a list of strings with single spaces. -/
def spaceJoin : List String → String
  | [] => ""
  | [x] => x
  | x :: xs => x ++ " " ++ spaceJoin xs

/-- Modelled from the spec: the date string formed from only the components
present, space-joined, absent components omitted entirely. -/
def specDateJoin (day mon yr : Option Int) : String :=
  spaceJoin
    ((if truthyI day then [toString (day.getD 0)] else []) ++
     (if truthyI mon then [(monthsGet (mon.getD 0)).getD ""] else []) ++
     (if truthyI yr then [toString (yr.getD 0)] else []))

/-- The selected studio pairs before deduplication: the main-flagged edges,
or the first edge when none is flagged main. -/
def selectedPairs : List StudioEdge → List (String × Int)
  | [] => []
  | e :: rest =>
    let mains := (((e :: rest).filter (fun s => s.isMain)).map
      (fun s => (s.name, s.id)))
    if mains = [] then [(e.name, e.id)] else mains

/-- A baseline entry with every field at its empty/zero sentinel. -/
def emptyEntry : AniMangaData :=
  { id := 0, id_mal := none, title_ro := none, title_en := none,
    title_ja := none, type := none, image := none, start_date := "",
    end_date := "", description := "", average_score := none,
    mean_score := none, votes := 0, favorites := none, nsfw := false,
    format := none, status := none, genres := [], tags := [], relations := [],
    links := [], episodes := none, season := none, season_year := none,
    next_episode_num := none, next_episode_date := none, duration := none,
    studios := [], studio_number := 0, volumes := none, chapters := none,
    trailer := none }

/-- The flat comma-joined tag-link list of the tag section. -/
def tagLinkJoin (d : AniMangaData) (b : Bool) : String :=
  String.intercalate ", " (d.tags.map (fun t =>
    get_link ("https://anilist.co/search/" ++ mediaTypeUrl d ++ "?genres=" ++
      pyReplace t " " "%20") t b))

/-- The trailer link text of the links section. -/
def trailerText (b : Bool) : String :=
  if b then "🎬 <b>TRAILER</b>" else "🎬 **TRAILER**"

/-- The comma-joined external-link list of the links section. -/
def linkJoin (d : AniMangaData) (b : Bool) : String :=
  String.intercalate ", " (d.links.map (fun l => get_link l.2 l.1 b))

/-- The wrapper of the links section. -/
def specLinksWrap (b : Bool) (s : String) : String :=
  if b then "<blockquote><b>External links:</b> " ++ s ++ "</blockquote>"
  else "> > **External links:** " ++ s ++ "  \n>  \n"

/-- The wrapper of the score section. -/
def specScoreWrap (b : Bool) (s : String) : String :=
  if b then "<blockquote><b>Score:</b> " ++ s ++ "</blockquote>"
  else "> > **Score**: " ++ s ++ "  \n>  \n"

/-- The numeric value displayed by the score section: the selected stored
integer divided by ten. -/
def displayedScore (d : AniMangaData) : Option ℚ :=
  (scoreTenths d).map (fun n => (n : ℚ) / 10)

theorem subPre_append (p l t : List Char) (h : subPre p l = true) :
    subPre p (l ++ t) = true := by
  induction p generalizing l with
  | nil => simp [subPre]
  | cons x xs ih =>
    cases l with
    | nil => simp [subPre] at h
    | cons c cs =>
      simp only [subPre, Bool.and_eq_true, beq_iff_eq] at h
      simp only [List.cons_append, subPre, Bool.and_eq_true, beq_iff_eq]
      exact ⟨h.1, ih cs h.2⟩

theorem subContains_append_left (pat a b : List Char)
    (h : subContains pat a = true) : subContains pat (a ++ b) = true := by
  induction a with
  | nil =>
    simp only [subContains, List.isEmpty_iff] at h
    subst h
    cases b with
    | nil => simp [subContains]
    | cons c cs => simp [subContains, subPre]
  | cons c cs ih =>
    simp only [subContains, Bool.or_eq_true] at h
    simp only [List.cons_append, subContains, Bool.or_eq_true]
    cases h with
    | inl h => exact Or.inl (subPre_append _ _ _ h)
    | inr h => exact Or.inr (ih h)

theorem subContains_append_right (pat a b : List Char)
    (h : subContains pat b = true) : subContains pat (a ++ b) = true := by
  induction a with
  | nil => simpa using h
  | cons c cs ih =>
    simp only [List.cons_append, subContains, Bool.or_eq_true]
    exact Or.inr ih

theorem occursStr_append_left (pat a b : String) (h : occursStr pat a = true) :
    occursStr pat (a ++ b) = true := by
  unfold occursStr at *
  rw [String.data_append]
  exact subContains_append_left _ _ _ h

theorem occursStr_append_right (pat a b : String) (h : occursStr pat b = true) :
    occursStr pat (a ++ b) = true := by
  unfold occursStr at *
  rw [String.data_append]
  exact subContains_append_right _ _ _ h

/-- If `pat` does not occur in `l`, `splitHead` leaves `l` unchanged. -/
theorem splitHead_of_not_contains (pat l : List Char)
    (h : subContains pat l = false) : splitHead pat l = l := by
  induction l with
  | nil => simp [splitHead]
  | cons c cs ih =>
    simp only [subContains, Bool.or_eq_false_iff] at h
    simp [splitHead, h.1, ih h.2]

/-- A leading segment decomposes the list. -/
theorem subPre_decomp (p l : List Char) (h : subPre p l = true) :
    l = p ++ l.drop p.length := by
  induction p generalizing l with
  | nil => simp
  | cons x xs ih =>
    cases l with
    | nil => simp [subPre] at h
    | cons c cs =>
      simp only [subPre, Bool.and_eq_true, beq_iff_eq] at h
      obtain ⟨h1, h2⟩ := h
      subst h1
      simpa using congrArg (x :: ·) (ih cs h2)

/-- `splitHead` computes the prefix before the first occurrence: if `pat`
occurs in `l`, then `l` decomposes as `splitHead pat l ++ pat ++ t` and no
occurrence of `pat` starts inside `splitHead pat l`. -/
theorem splitHead_spec (pat l : List Char) (h : subContains pat l = true) :
    ∃ t, l = splitHead pat l ++ pat ++ t ∧
      ∀ i < (splitHead pat l).length, subPre pat (l.drop i) = false := by
  induction l with
  | nil =>
    refine ⟨[], ?_, ?_⟩
    · simp only [subContains, List.isEmpty_iff] at h
      simp [splitHead, h]
    · intro i hi
      simp [splitHead] at hi
  | cons c cs ih =>
    by_cases hp : subPre pat (c :: cs) = true
    · -- an occurrence starts right here
      refine ⟨(c :: cs).drop pat.length, ?_, ?_⟩
      · simp only [splitHead, hp, if_true, List.nil_append]
        exact subPre_decomp pat (c :: cs) hp
      · intro i hi
        simp [splitHead, hp] at hi
    · have hcs : subContains pat cs = true := by
        simp only [subContains, Bool.or_eq_true] at h
        rcases h with h | h
        · exact absurd h hp
        · exact h
      obtain ⟨t, ht, hno⟩ := ih hcs
      refine ⟨t, ?_, ?_⟩
      · simp only [splitHead, hp, if_false, List.cons_append]
        exact congrArg (c :: ·) ht
      · intro i hi
        simp only [splitHead, hp, if_false, List.length_cons] at hi
        cases i with
        | zero => simpa using (Bool.eq_false_iff.mpr hp)
        | succ j =>
          simp only [List.drop_succ_cons]
          exact hno j (Nat.lt_of_succ_lt_succ hi)

theorem sInsert_perm {α : Type} (key : α → Nat) (x : α) (l : List α) :
    List.Perm (sInsert key x l) (x :: l) := by
  induction l with
  | nil => simp [sInsert]
  | cons y ys ih =>
    simp only [sInsert]
    split
    · exact List.Perm.refl _
    · exact List.Perm.trans (List.Perm.cons y ih) (List.Perm.swap x y ys)

theorem pySorted_perm {α : Type} (key : α → Nat) (l : List α) :
    List.Perm (pySorted key l) l := by
  induction l with
  | nil => simp [pySorted]
  | cons x xs ih =>
    exact List.Perm.trans (sInsert_perm key x (pySorted key xs))
      (List.Perm.cons x ih)

theorem sInsert_sorted {α : Type} (key : α → Nat) (x : α) (l : List α)
    (h : List.Pairwise (fun a b => key a ≤ key b) l) :
    List.Pairwise (fun a b => key a ≤ key b) (sInsert key x l) := by
  induction l with
  | nil => simp [sInsert]
  | cons y ys ih =>
    rcases List.pairwise_cons.mp h with ⟨hy, hys⟩
    simp only [sInsert]
    split
    · rename_i hle
      refine List.pairwise_cons.mpr ⟨?_, h⟩
      intro b hb
      rcases List.mem_cons.mp hb with rfl | hb
      · exact hle
      · exact le_trans hle (hy b hb)
    · rename_i hgt
      refine List.pairwise_cons.mpr ⟨?_, ih hys⟩
      intro b hb
      have hb2 := (sInsert_perm key x ys).mem_iff.mp hb
      rcases List.mem_cons.mp hb2 with rfl | hb2
      · exact le_of_not_le hgt
      · exact hy b hb2

theorem pySorted_sorted {α : Type} (key : α → Nat) (l : List α) :
    List.Pairwise (fun a b => key a ≤ key b) (pySorted key l) := by
  induction l with
  | nil => simp [pySorted]
  | cons x xs ih => exact sInsert_sorted key x (pySorted key xs) ih

theorem sInsert_filter_eq {α : Type} (key : α → Nat) (x : α) (l : List α)
    (p : Nat) (hx : key x = p) :
    (sInsert key x l).filter (fun a => key a == p) =
      x :: l.filter (fun a => key a == p) := by
  induction l with
  | nil => simp [sInsert, List.filter_cons, hx]
  | cons y ys ih =>
    simp only [sInsert]
    split
    · simp [List.filter_cons, hx]
    · rename_i hgt
      have hyp : (key y == p) = false := by
        simp only [beq_eq_false_iff_ne, ne_eq]
        intro hyeq
        exact hgt (le_of_eq (hx.trans hyeq.symm))
      simp only [List.filter_cons, hyp, Bool.false_eq_true, if_false]
      exact ih

theorem sInsert_filter_ne {α : Type} (key : α → Nat) (x : α) (l : List α)
    (p : Nat) (hx : key x ≠ p) :
    (sInsert key x l).filter (fun a => key a == p) =
      l.filter (fun a => key a == p) := by
  induction l with
  | nil => simp [sInsert, List.filter_cons, hx]
  | cons y ys ih =>
    simp only [sInsert]
    split
    · simp [List.filter_cons, hx]
    · simp only [List.filter_cons]
      split
      · rw [ih]
      · exact ih

/-- Stability of `pySorted`: for every key value, the elements carrying that
key appear in the output in exactly their input order. -/
theorem pySorted_stable {α : Type} (key : α → Nat) (l : List α) (p : Nat) :
    (pySorted key l).filter (fun a => key a == p) =
      l.filter (fun a => key a == p) := by
  induction l with
  | nil => simp [pySorted]
  | cons x xs ih =>
    simp only [pySorted]
    by_cases hx : key x = p
    · rw [sInsert_filter_eq key x _ p hx, ih, List.filter_cons]
      simp [hx]
    · rw [sInsert_filter_ne key x _ p hx, ih, List.filter_cons]
      simp [hx]

/-! ### Theorems -/

/-- Claim C4 counterexample: the date formatter is not the space-join of the
present components on every input — with `{day: 4, month: 10, year: null}`
the code produces `"4 Oct "` with a trailing space, while the space-joined
form is `"4 Oct"`. -/
theorem C4_counterexample :
    parse_date_fields (some 4) (some 10) none = .ok "4 Oct " ∧
    specDateJoin (some 4) (some 10) none = "4 Oct" ∧
    ("4 Oct " : String) ≠ "4 Oct" := by
  refine ⟨rfl, rfl, ?_⟩
  decide

/-- Claim C4 (amended): each present day/month component is rendered
followed by a space and the year bare, so the output is the space-join of
the present components exactly when the year is present or no component is;
when the year is absent but a day or month is present, one trailing space
remains.  The concrete examples of the claim hold as stated. -/
theorem C4_date_formatting (day mon yr : Option Int)
    (hm : truthyI mon = true → (monthsGet (mon.getD 0)).isSome) :
    (truthyI yr = true ∨ (truthyI day = false ∧ truthyI mon = false) →
      parse_date_fields day mon yr = .ok (specDateJoin day mon yr)) ∧
    (truthyI yr = false → (truthyI day || truthyI mon) = true →
      parse_date_fields day mon yr = .ok (specDateJoin day mon yr ++ " ")) ∧
    parse_date_fields (some 4) (some 10) (some 2024) = .ok "4 Oct 2024" ∧
    parse_date_fields none (some 10) (some 2024) = .ok "Oct 2024" ∧
    parse_date_fields none none (some 2024) = .ok "2024" ∧
    parse_date_fields none none none = .ok "" := by
  have hmonth : ∀ h : truthyI mon = true, ∃ ab,
      monthsGet (mon.getD 0) = some ab :=
    fun h => Option.isSome_iff_exists.mp (hm h)
  refine ⟨?_, ?_, rfl, rfl, rfl, rfl⟩
  · intro hcase
    by_cases hmo : truthyI mon = true
    · obtain ⟨ab, hab⟩ := hmonth hmo
      rcases hcase with hy | ⟨hd, hmo2⟩
      · cases hd : truthyI day <;>
          simp [parse_date_fields, specDateJoin, spaceJoin, hd, hmo, hy,
            hab, bind, Except.bind, pure, Except.pure, String.append_assoc]
      · rw [hmo] at hmo2; exact absurd hmo2 (by decide)
    · rw [Bool.not_eq_true] at hmo
      rcases hcase with hy | ⟨hd, hmo2⟩
      · cases hd : truthyI day <;>
          simp [parse_date_fields, specDateJoin, spaceJoin, hd, hmo, hy,
            bind, Except.bind, pure, Except.pure, String.append_assoc]
      · cases hy2 : truthyI yr <;>
          simp [parse_date_fields, specDateJoin, spaceJoin, hd, hmo2, hmo,
            hy2, bind, Except.bind, pure, Except.pure]
  · intro hy hdm
    by_cases hmo : truthyI mon = true
    · obtain ⟨ab, hab⟩ := hmonth hmo
      cases hd : truthyI day <;>
        simp [parse_date_fields, specDateJoin, spaceJoin, hd, hmo, hy, hab,
          bind, Except.bind, pure, Except.pure, String.append_assoc]
    · rw [Bool.not_eq_true] at hmo
      cases hd : truthyI day
      · rw [hd, hmo] at hdm; exact absurd hdm (by decide)
      · simp [parse_date_fields, specDateJoin, spaceJoin, hd, hmo, hy,
          bind, Except.bind, pure, Except.pure, String.append_assoc]

/-- Claim C4 witness. -/
theorem C4_date_formatting_witness :
    parse_date_fields (some 4) (some 10) (some 2024) =
      .ok (specDateJoin (some 4) (some 10) (some 2024)) :=
  (C4_date_formatting (some 4) (some 10) (some 2024) (fun _ => by decide)).1
    (Or.inl rfl)

/-- Claim C5: the studio resolver returns the deduplicated main-flagged
(name, id) pairs, falling back to the first edge when no edge is main, with
`studio_number` equal to the edge count minus the selected set size; in
particular an exactly-one-main edge list yields that single pair with count
`total - 1`, and the empty edge list yields the empty set with count 0. -/
theorem C5_parse_studios (edges : List StudioEdge) :
    parse_studios ([] : List StudioEdge) = ([], 0) ∧
    (edges ≠ [] →
      (parse_studios edges).2 =
        (edges.length : Int) - ((parse_studios edges).1.length : Int)) ∧
    (parse_studios edges).1.Nodup ∧
    (∀ p, p ∈ (parse_studios edges).1 ↔ p ∈ selectedPairs edges) ∧
    (∀ e, edges.filter (fun s => s.isMain) = [e] →
      parse_studios edges =
        ([(e.name, e.id)], (edges.length : Int) - 1)) ∧
    (∀ e rest, edges = e :: rest →
      edges.filter (fun s => s.isMain) = [] →
      parse_studios edges =
        ([(e.name, e.id)], (edges.length : Int) - 1)) := by
  refine ⟨rfl, ?_, ?_, ?_, ?_, ?_⟩
  · intro hne
    cases edges with
    | nil => exact absurd rfl hne
    | cons e rest =>
      simp [parse_studios]
  · cases edges with
    | nil => simp [parse_studios]
    | cons e rest =>
      simp only [parse_studios]
      split
      · simp
      · exact List.nodup_dedup _
  · intro p
    cases edges with
    | nil => simp [parse_studios, selectedPairs]
    | cons e rest =>
      simp only [parse_studios, selectedPairs]
      by_cases hm0 : ((e :: rest).filter (fun s => s.isMain)).map
          (fun s => (s.name, s.id)) = []
      · simp [hm0]
      · have hded : (((e :: rest).filter (fun s => s.isMain)).map
            (fun s => (s.name, s.id))).dedup ≠ [] :=
          fun hz => hm0 ((List.dedup_eq_nil _).mp hz)
        rw [if_neg hm0, if_neg (by simpa [List.isEmpty_iff] using hded)]
        exact List.mem_dedup
  · intro x hx
    cases edges with
    | nil => simp at hx
    | cons e rest =>
      simp only [parse_studios]
      have hmap : ((e :: rest).filter (fun s => s.isMain)).map
          (fun s => (s.name, s.id)) = [(x.name, x.id)] := by rw [hx]; rfl
      rw [hmap]
      simp
  · intro x rest hx hfilter
    subst hx
    simp only [parse_studios]
    have hmap : ((x :: rest).filter (fun s => s.isMain)).map
        (fun s => (s.name, s.id)) = [] := by rw [hfilter]; rfl
    rw [hmap]
    simp

/-- Claim C5 witness. -/
theorem C5_parse_studios_witness :
    parse_studios [⟨true, "A", 1⟩, ⟨false, "B", 2⟩, ⟨false, "C", 3⟩] =
      ([("A", 1)], (3 : Int) - 1) :=
  ((C5_parse_studios [⟨true, "A", 1⟩, ⟨false, "B", 2⟩,
    ⟨false, "C", 3⟩]).2.2.2.2.1 ⟨true, "A", 1⟩ (by decide))

/-- Claim C6: the description trim cuts at the first occurrence of
`"Notes:"` when it occurs, else at the first occurrence of `"Note:"`, else
leaves the description unchanged — in particular it is the identity on
descriptions containing neither marker. -/
theorem C6_description_trim (s : String) :
    (subContains "Notes:".data s.data = true →
      (∃ t, s.data = (trimDesc s).data ++ "Notes:".data ++ t ∧
        ∀ i < (trimDesc s).data.length,
          subPre "Notes:".data (s.data.drop i) = false)) ∧
    (subContains "Notes:".data s.data = false →
      subContains "Note:".data s.data = true →
      (∃ t, s.data = (trimDesc s).data ++ "Note:".data ++ t ∧
        ∀ i < (trimDesc s).data.length,
          subPre "Note:".data (s.data.drop i) = false)) ∧
    (subContains "Notes:".data s.data = false →
      subContains "Note:".data s.data = false →
      parse_desctiption_fields (some s) = s) := by
  refine ⟨?_, ?_, ?_⟩
  · intro h
    have hd : (trimDesc s).data = splitHead "Notes:".data s.data := by
      simp [trimDesc, h]
    rw [hd]
    exact splitHead_spec _ _ h
  · intro h1 h2
    have hd : (trimDesc s).data = splitHead "Note:".data s.data := by
      simp [trimDesc, h1]
    rw [hd]
    exact splitHead_spec _ _ h2
  · intro h1 h2
    have ht : trimDesc s = s := by
      unfold trimDesc
      simp only [h1, if_false]
      apply congrArg String.mk (splitHead_of_not_contains _ _ h2)
    simp only [parse_desctiption_fields]
    split
    · exact ht
    · rename_i hne
      have hs : s = "" := by simpa using hne
      rw [hs]

/-- Claim C6 witness. -/
theorem C6_description_trim_witness :
    subContains "Notes:".data "plain text".data = false ∧
    subContains "Note:".data "plain text".data = false ∧
    parse_desctiption_fields (some "plain text") = "plain text" :=
  ⟨by decide, by decide,
    (C6_description_trim "plain text").2.2 (by decide) (by decide)⟩

/-- Claim C9: a configured maximum parsing to a non-positive integer is
floor-clamped to 1, a value parsing to at least 1 is used as-is, and an
unparsable value falls back to the default with exactly one logged error;
both configured maxima use default 4, and the concrete cases -2, 0 and
"abc" behave as documented. -/
theorem C9_config_clamping (v : Option ConfigVal) (dflt : Int) (n : Int) :
    (pyIntOf (v.getD (.num dflt)) = some n → n ≤ 0 →
      get_max_value v dflt = (1, false)) ∧
    (pyIntOf (v.getD (.num dflt)) = some n → 1 ≤ n →
      get_max_value v dflt = (n, false)) ∧
    (pyIntOf (v.getD (.num dflt)) = none →
      get_max_value v dflt = (dflt, true)) ∧
    get_max_results v = get_max_value v 4 ∧
    get_max_relations v = get_max_value v 4 ∧
    get_max_value (some (.num (-2))) 4 = (1, false) ∧
    get_max_value (some (.num 0)) 4 = (1, false) ∧
    get_max_value (some (.str "abc")) 4 = (4, true) := by
  refine ⟨?_, ?_, ?_, rfl, rfl, by decide, by decide, by decide⟩
  · intro hp hn
    simp [get_max_value, hp]
    omega
  · intro hp hn
    simp [get_max_value, hp]
    omega
  · intro hp
    simp [get_max_value, hp]

/-- Claim C9 witness. -/
theorem C9_config_clamping_witness :
    get_max_value (some (.str "-2")) 4 = (1, false) :=
  (C9_config_clamping (some (.str "-2")) 4 (-2)).1 (by decide) (by decide)

/-- A string with a non-empty right part is non-empty. -/
theorem append_ne_empty_right (a b : String) (hb : b.length ≠ 0) :
    a ++ b ≠ "" := by
  intro he
  have h1 : a.length + b.length = 0 := by
    simpa [String.length_append] using congrArg String.length he
  omega

/-- `_get_link` never renders the empty string. -/
theorem get_link_ne_empty (url text : String) (b : Bool) :
    get_link url text b ≠ "" := by
  cases b <;> simp only [get_link, if_true, if_false, Bool.false_eq_true] <;>
    exact append_ne_empty_right _ _ (by decide)

set_option maxRecDepth 8000 in
/-- Claim C3 counterexample: the configuration copies only `max_results`
and `max_relations` — there is no tag-display threshold — and for an entry
with 11 tags (more than the claimed default threshold of 10) the HTML tag
block contains no collapsible disclosure element. -/
theorem C3_counterexample :
    config_keys = ["max_results", "max_relations"] ∧
    ({ emptyEntry with tags := ["a", "b", "c", "d", "e", "f", "g", "h",
       "i", "j", "k"] } : AniMangaData).tags.length = 11 ∧
    occursStr "<details>"
      (get_tags { emptyEntry with tags := ["a", "b", "c", "d", "e", "f",
        "g", "h", "i", "j", "k"] } true) = false ∧
    occursStr "<summary>"
      (get_tags { emptyEntry with tags := ["a", "b", "c", "d", "e", "f",
        "g", "h", "i", "j", "k"] } true) = false := by
  refine ⟨rfl, rfl, ?_, ?_⟩ <;> decide

/-- Claim C3 (amended): there is no configured tag-display threshold (the
configuration exposes only the result and relation maxima), and the tag
section never branches on the tag count: in both HTML and Markdown it is
the flat comma-joined tag-link list whenever the tag list is non-empty, and
empty otherwise, with no tag-specific collapsible disclosure in either
format. -/
theorem C3_tags_no_threshold (d : AniMangaData) (b : Bool) :
    config_keys = ["max_results", "max_relations"] ∧
    (d.tags = [] → get_tags d b = "") ∧
    (d.tags ≠ [] →
      get_tags d b =
        (if b then
          "<blockquote><b>Tags:</b> " ++ tagLinkJoin d b ++ "</blockquote>"
        else "> > **Tags:** " ++ tagLinkJoin d b ++ "  \n>  \n")) := by
  refine ⟨rfl, ?_, ?_⟩
  · intro h
    simp [get_tags, h]
  · intro h
    have hne : d.tags.isEmpty = false := by
      simpa [List.isEmpty_iff] using h
    cases b <;> simp [get_tags, tagLinkJoin, hne]

/-- Claim C3 witness. -/
theorem C3_tags_no_threshold_witness :
    get_tags emptyEntry true = "" :=
  (C3_tags_no_threshold emptyEntry true).2.1 rfl

set_option maxRecDepth 8000 in
/-- Claim C8 counterexample: a trailer whose site is not `"youtube"`
(here `"dailymotion"`) is still rendered as a trailer link when the
external-link list is non-empty, contradicting the claimed
youtube-and-non-empty-id condition. -/
theorem C8_counterexample :
    ({ emptyEntry with
       links := [("Official Site", "http://x")],
       trailer := some ("dailymotion", "abc") } : AniMangaData).trailer =
      some ("dailymotion", "abc") ∧
    occursStr "youtube.com/watch?v=abc"
      (get_links { emptyEntry with
        links := [("Official Site", "http://x")],
        trailer := some ("dailymotion", "abc") } true) = true := by
  refine ⟨rfl, ?_⟩
  decide

/-- The section condition of `_get_links`, read at spec level. -/
theorem linksSectionCond_iff (d : AniMangaData) :
    linksSectionCond d = true ↔
      (d.links ≠ [] ∨ ∃ i, d.trailer = some ("youtube", i) ∧ i ≠ "") := by
  cases ht : d.trailer with
  | none => simp [linksSectionCond, ht, List.isEmpty_iff]
  | some p =>
    cases p with
    | mk s i =>
      constructor
      · intro hc
        simp only [linksSectionCond, ht, Bool.or_eq_true,
          Bool.and_eq_true] at hc
        rcases hc with hc | ⟨⟨_, hs⟩, hi⟩
        · exact Or.inl (by simpa [List.isEmpty_iff] using hc)
        · refine Or.inr ⟨i, ?_, by simpa using hi⟩
          simp only [Option.getD_some] at hs
          simp only [beq_iff_eq] at hs
          rw [hs]
      · intro hc
        rcases hc with hc | ⟨i2, hi2, hne⟩
        · simp [linksSectionCond, List.isEmpty_iff, hc]
        · injection hi2 with hp
          injection hp with h1 h2
          simp [linksSectionCond, ht, h1, h2, hne]

/-- Claim C8 (amended): the links section renders exactly when the
external-link list is non-empty or the trailer has site `"youtube"` with a
non-empty id; inside a rendered section the trailer link is placed ahead of
the comma-joined external links whenever the trailer tuple is non-empty —
the youtube/non-empty-id conditions guard only the section condition, so a
trailer of any site renders when external links are present. -/
theorem C8_links_trailer (d : AniMangaData) (b : Bool) :
    (get_links d b = "" ↔ linksSectionCond d = false) ∧
    (linksSectionCond d = true ↔
      (d.links ≠ [] ∨ ∃ i, d.trailer = some ("youtube", i) ∧ i ≠ "")) ∧
    (∀ s i, d.trailer = some (s, i) → linksSectionCond d = true →
      get_links d b = specLinksWrap b
        (get_link ("https://www.youtube.com/watch?v=" ++ i) (trailerText b)
            b ++
          (if d.links = [] then "" else ", " ++ linkJoin d b))) ∧
    (d.trailer = none → linksSectionCond d = true →
      get_links d b = specLinksWrap b (linkJoin d b)) := by
  refine ⟨?_, linksSectionCond_iff d, ?_, ?_⟩
  · constructor
    · intro he
      by_contra hc
      rw [Bool.not_eq_false] at hc
      rw [get_links, if_pos hc] at he
      revert he
      cases b <;>
        simp only [if_true, if_false, Bool.false_eq_true] <;>
        exact append_ne_empty_right _ _ (by decide)
    · intro hc
      simp [get_links, hc]
  · intro s i ht hc
    have hlinks :
        (if d.trailer.isSome = true then
          get_link ("https://www.youtube.com/watch?v=" ++
            (d.trailer.getD ("", "")).2) (trailerText b) b
        else "") =
        get_link ("https://www.youtube.com/watch?v=" ++ i) (trailerText b)
          b := by
      simp [ht]
    rw [get_links, if_pos hc]
    cases hl : d.links with
    | nil =>
      simp [ht, trailerText, specLinksWrap, hl]
    | cons x xs =>
      have hl2 : d.links.isEmpty = false := by simp [hl]
      cases b
      · have hgl := get_link_ne_empty
          ("https://www.youtube.com/watch?v=" ++ i) "🎬 **TRAILER**" false
        simp [ht, trailerText, specLinksWrap, hl, hl2, linkJoin, hgl,
          String.append_assoc]
      · have hgl := get_link_ne_empty
          ("https://www.youtube.com/watch?v=" ++ i) "🎬 <b>TRAILER</b>" true
        simp [ht, trailerText, specLinksWrap, hl, hl2, linkJoin, hgl,
          String.append_assoc]
  · intro ht hc
    rw [get_links, if_pos hc]
    have hl : d.links ≠ [] := by
      rcases ((linksSectionCond_iff d).mp hc) with h | ⟨i, hi, _⟩
      · exact h
      · rw [ht] at hi; exact absurd hi (by simp)
    have hl2 : d.links.isEmpty = false := by
      simpa [List.isEmpty_iff] using hl
    simp [ht, specLinksWrap, hl2, linkJoin]

/-- Every priority in the relation table is below the table size. -/
theorem relation_types_priorities_lt :
    ∀ x ∈ relation_types, x.2.2 < relation_types.length := by decide

/-- A kind found in the table has its table priority. -/
theorem relPriorityK_of_lookup (k : String) (p : String × Nat)
    (h : tblGet relation_types k = some p) : relPriorityK k = p.2 := by
  simp [relPriorityK, h]

/-- Claim C1: the normalized relation list is the stable ascending sort of
the edges by the fixed priority table, mapped to (label, node) pairs and
truncated to the configured maximum: the sorted edge list is a permutation
of the input, its priorities are non-decreasing, edges of equal priority
keep their input order, a kind absent from the table gets priority equal to
the table size (13) — hence sorts after every known kind — and a title-cased
label, and the truncated output never exceeds the maximum. -/
theorem C1_relations (edges : List RelationEdge) (maxRel : Nat) :
    parse_relations edges =
      (pySorted (fun e => relPriorityK e.relationType) edges).map relEntry ∧
    ((parse_relations edges).take maxRel).length ≤ maxRel ∧
    List.Pairwise
      (fun a b => relPriorityK a.relationType ≤ relPriorityK b.relationType)
      (pySorted (fun e => relPriorityK e.relationType) edges) ∧
    List.Perm (pySorted (fun e => relPriorityK e.relationType) edges)
      edges ∧
    (∀ p, (pySorted (fun e => relPriorityK e.relationType) edges).filter
        (fun e => relPriorityK e.relationType == p) =
      edges.filter (fun e => relPriorityK e.relationType == p)) ∧
    (∀ k, tblGet relation_types k = none →
      relPriorityK k = relation_types.length ∧ relLabelK k = pyTitle k) ∧
    (∀ k k2, (tblGet relation_types k).isSome = true →
      tblGet relation_types k2 = none →
      relPriorityK k < relPriorityK k2) ∧
    relation_types.length = 13 := by
  refine ⟨rfl, ?_, ?_, ?_, ?_, ?_, ?_, rfl⟩
  · exact List.length_take_le maxRel (parse_relations edges)
  · exact pySorted_sorted _ edges
  · exact pySorted_perm _ edges
  · exact pySorted_stable _ edges
  · intro k h
    constructor
    · simp [relPriorityK, h]
    · simp [relLabelK, h]
  · intro k k2 h1 h2
    obtain ⟨p, hp⟩ := Option.isSome_iff_exists.mp h1
    have hmem : ∃ q ∈ relation_types, q.2 = p := by
      simp only [tblGet, Option.map_eq_some'] at hp
      obtain ⟨q, hq1, hq2⟩ := hp
      exact ⟨q, List.mem_of_find?_eq_some hq1, hq2⟩
    obtain ⟨q, hq1, hq2⟩ := hmem
    have hlt := relation_types_priorities_lt q hq1
    rw [relPriorityK_of_lookup k p hp]
    have h2p : relPriorityK k2 = relation_types.length := by
      simp [relPriorityK, h2]
    rw [h2p, ← hq2]
    exact hlt

/-- Claim C1 witness. -/
theorem C1_relations_witness :
    ((parse_relations []).take 2).length ≤ 2 ∧
    relPriorityK "FAKERELATION" = relation_types.length ∧
    relLabelK "FAKERELATION" = pyTitle "FAKERELATION" ∧
    relPriorityK "SEQUEL" < relPriorityK "FAKERELATION" :=
  ⟨(C1_relations [] 2).2.1,
   ((C1_relations [] 2).2.2.2.2.2.1 "FAKERELATION" (by decide)).1,
   ((C1_relations [] 2).2.2.2.2.2.1 "FAKERELATION" (by decide)).2,
   (C1_relations [] 2).2.2.2.2.2.2.1 "SEQUEL" "FAKERELATION" (by decide)
     (by decide)⟩

/-- Claim C2 counterexample: a detail payload with no error list and no
data payload (the empty JSON object) makes the parser raise a `KeyError`
instead of returning the claimed "no result" `None`. -/
theorem C2_counterexample :
    al_parse_main_result none (.jobj []) = .error (.keyError "data") := rfl

/-- Claim C2 (amended): a detail payload with a truthy error envelope makes
the parser return `None` after logging the `"; "`-joined error messages,
and the orchestrator then reports a user-visible failure and sends no
summary; but a payload with no error list and no `"data"` key raises a
`KeyError` (it is not treated as the same logged decode failure). -/
theorem C2_detail_error_handling (cfg : Option ConfigVal) (data : JVal)
    (title : String) :
    (∀ l msgs, data.getAttr "errors" = .ok (some (.jarr l)) →
      l.isEmpty = false → l.mapM errMessage = Except.ok msgs →
      al_parse_main_result cfg data =
        .ok (["Error parsing results: " ++ String.intercalate "; " msgs],
          none)) ∧
    (∀ fs, data = .jobj fs →
      (((fs.find? (fun p => p.1 == "errors")).map
        (fun p => p.2)).getD JVal.jnull).truthy = false →
      fs.find? (fun p => p.1 == "data") = none →
      al_parse_main_result cfg data = .error (.keyError "data")) ∧
    (∀ searchResp logs2 res imgR logs,
      al_parse_results searchResp = .ok (logs2, res) →
      res.isEmpty = false →
      al_parse_main_result cfg data = .ok (logs, none) →
      al_message_handler cfg title searchResp data imgR =
        .ok (.fetchProblem title)) := by
  refine ⟨?_, ?_, ?_⟩
  · intro l msgs hga hne hmsgs
    have hmsgs2 : List.mapM.loop errMessage l [] = Except.ok msgs := by
      simpa [List.mapM] using hmsgs
    simp [al_parse_main_result, hga, hne, hmsgs2, JVal.truthy, JVal.asArr,
      bind, Except.bind, pure, Except.pure]
  · intro fs hdf htr hdata
    subst hdf
    simp [al_parse_main_result, JVal.getAttr, JVal.sub, htr, hdata, bind,
      Except.bind]
  · intro searchResp logs2 res imgR logs hsr hres hmain
    simp [al_message_handler, hsr, hres, hmain, bind, Except.bind, pure,
      Except.pure]

/-- Claim C2 witness. -/
theorem C2_detail_error_handling_witness :
    al_parse_main_result none (.jobj [("errors", .jarr
      [.jobj [("message", .jstr "Error message")],
       .jobj [("message", .jstr "Error message 2")]]), ("data", .jnull)]) =
      .ok (["Error parsing results: " ++
        String.intercalate "; " ["Error message", "Error message 2"]],
        none) :=
  (C2_detail_error_handling none (.jobj [("errors", .jarr
      [.jobj [("message", .jstr "Error message")],
       .jobj [("message", .jstr "Error message 2")]]), ("data", .jnull)])
    "t").1
    [.jobj [("message", .jstr "Error message")],
     .jobj [("message", .jstr "Error message 2")]]
    ["Error message", "Error message 2"] rfl rfl rfl

/-- The alternative-titles line occurs in the output of its section
renderer, in both formats. -/
theorem get_other_titles_occurs (d : AniMangaData) (b : Bool) :
    occursStr "Other titles:" (get_other_titles d b) = true := by
  cases b <;>
    · rw [get_other_titles]
      simp only [if_true, if_false, Bool.false_eq_true]
      apply occursStr_append_left
      apply occursStr_append_left
      decide

/-- The alternative-titles line occurs in the Markdown body of every
prepared message. -/
theorem prepare_message_body_occurs (d : AniMangaData)
    (other : List SearchResult) :
    occursStr "Other titles:" (prepare_message d other).body = true := by
  simp only [prepare_message]
  apply occursStr_append_left
  apply occursStr_append_left
  apply occursStr_append_left
  apply occursStr_append_left
  apply occursStr_append_left
  apply occursStr_append_left
  apply occursStr_append_left
  apply occursStr_append_left
  apply occursStr_append_left
  apply occursStr_append_right
  exact get_other_titles_occurs d false

/-- The alternative-titles line occurs in the HTML body of every prepared
message. -/
theorem prepare_message_html_occurs (d : AniMangaData)
    (other : List SearchResult) :
    occursStr "Other titles:" (prepare_message d other).formatted_body =
      true := by
  simp only [prepare_message]
  apply occursStr_append_left
  apply occursStr_append_left
  apply occursStr_append_left
  apply occursStr_append_right
  apply occursStr_append_left
  apply occursStr_append_left
  apply occursStr_append_left
  apply occursStr_append_right
  apply occursStr_append_left
  apply occursStr_append_left
  apply occursStr_append_left
  apply occursStr_append_left
  apply occursStr_append_left
  apply occursStr_append_left
  apply occursStr_append_left
  exact get_other_titles_occurs d true

/-- Claim C10: both rendered bodies always contain the
`"Other titles:"` line, unconditionally — with no English and no native
title the line is rendered with empty content — while the score, format,
status, dates, studios, links, genres and tags sections are each omitted
entirely when their data is empty. -/
theorem C10_other_titles (d : AniMangaData) (other : List SearchResult)
    (b : Bool) :
    occursStr "Other titles:" (prepare_message d other).body = true ∧
    occursStr "Other titles:" (prepare_message d other).formatted_body =
      true ∧
    (truthyS d.title_en = false → d.title_ja = some "" →
      get_other_titles d true =
        "<blockquote><b>Other titles:</b> </blockquote>" ∧
      get_other_titles d false = "> > **Other titles:** " ++ "  \n>  \n") ∧
    (truthyI d.average_score = false → truthyI d.mean_score = false →
      get_score d b = "") ∧
    (truthyS d.format = false → get_format d b = "") ∧
    (truthyS d.status = false → get_status_next_episode d b = "") ∧
    (d.start_date = "" →
      (truthyS d.season && truthyI d.season_year) = false →
      get_dates_season d b = "") ∧
    (d.studios = [] → get_studios d b = "") ∧
    (d.links = [] → d.trailer = none → get_links d b = "") ∧
    (d.genres = [] → get_genres d b = "") ∧
    (d.tags = [] → get_tags d b = "") := by
  refine ⟨prepare_message_body_occurs d other,
    prepare_message_html_occurs d other, ?_, ?_, ?_, ?_, ?_, ?_, ?_, ?_, ?_⟩
  · intro hen hja
    constructor
    · rw [get_other_titles]
      simp [hen, hja, pyStr]
    · rw [get_other_titles]
      simp [hen, hja, pyStr]
  · intro ha hm
    simp [get_score, scoreTenths, ha, hm]
  · intro hf
    simp [get_format, hf]
  · intro hs
    simp [get_status_next_episode, hs]
  · intro h1 h2
    simp [get_dates_season, h1, h2]
  · intro hs
    simp [get_studios, hs]
  · intro h1 h2
    simp [get_links, linksSectionCond, h1, h2]
  · intro hg
    simp [get_genres, hg]
  · intro ht
    simp [get_tags, ht]

/-- Claim C10 witness. -/
theorem C10_other_titles_witness :
    occursStr "Other titles:"
      (prepare_message { emptyEntry with title_ja := some "" } []).body =
      true ∧
    get_other_titles { emptyEntry with title_ja := some "" } true =
      "<blockquote><b>Other titles:</b> </blockquote>" ∧
    get_score { emptyEntry with title_ja := some "" } true = "" :=
  ⟨(C10_other_titles { emptyEntry with title_ja := some "" } [] true).1,
   ((C10_other_titles { emptyEntry with title_ja := some "" } [] true).2.2.1
     (by decide) rfl).1,
   (C10_other_titles { emptyEntry with title_ja := some "" } [] true).2.2.2.1
     (by decide) (by decide)⟩

/-- The selected score is never the falsy zero. -/
theorem scoreTenths_ne_zero (d : AniMangaData) (n : Int)
    (h : scoreTenths d = some n) : n ≠ 0 := by
  unfold scoreTenths at h
  split at h
  · rename_i ha
    cases hav : d.average_score with
    | none => rw [hav] at ha; exact absurd ha (by decide)
    | some m =>
      rw [hav] at ha h
      simp only [Option.getD_some, Option.some.injEq] at h
      subst h
      simpa [truthyI] using ha
  · split at h
    · rename_i hm
      cases hme : d.mean_score with
      | none => rw [hme] at hm; exact absurd hm (by decide)
      | some m =>
        rw [hme] at hm h
        simp only [Option.getD_some, Option.some.injEq] at h
        subst h
        simpa [truthyI] using hm
    · exact absurd h (by simp)

/-- Two conditionally-accumulated appends, flattened. -/
theorem accum_two_append (A V F : String) (c1 c2 : Bool) :
    (if c2 then (if c1 then A ++ V else A) ++ F
     else (if c1 then A ++ V else A)) =
    A ++ (if c1 then V else "") ++ (if c2 then F else "") := by
  cases c1 <;> cases c2 <;> simp [String.append_assoc]

/-- Claim C7: the score section renders exactly when the average or mean
score is truthy; the average is preferred and the mean is the fallback, the
displayed value being the stored integer divided by ten; the vote count and
the favorite count are each appended exactly when non-zero. -/
theorem C7_score (d : AniMangaData) (b : Bool) :
    (get_score d b = "" ↔
      (truthyI d.average_score = false ∧ truthyI d.mean_score = false)) ∧
    (truthyI d.average_score = true →
      displayedScore d = some ((d.average_score.getD 0 : ℚ) / 10)) ∧
    (truthyI d.average_score = false → truthyI d.mean_score = true →
      displayedScore d = some ((d.mean_score.getD 0 : ℚ) / 10)) ∧
    (∀ n, scoreTenths d = some n →
      get_score d b = specScoreWrap b
        ("⭐ " ++ showTenths n ++ "/10" ++
         (if d.votes != 0 then
           " | 👤 " ++ toString d.votes ++ " votes" else "") ++
         (if truthyI d.favorites then
           " | ❤️ " ++ toString (d.favorites.getD 0) ++ " favorites"
          else ""))) := by
  have hstruct : ∀ n, scoreTenths d = some n →
      get_score d b = specScoreWrap b
        ("⭐ " ++ showTenths n ++ "/10" ++
         (if d.votes != 0 then
           " | 👤 " ++ toString d.votes ++ " votes" else "") ++
         (if truthyI d.favorites then
           " | ❤️ " ++ toString (d.favorites.getD 0) ++ " favorites"
          else "")) := by
    intro n hn
    have hne := scoreTenths_ne_zero d n hn
    have hne2 : (n == 0) = false := by simpa using hne
    rw [get_score, hn]
    simp only [hne2, Bool.false_eq_true, if_false]
    by_cases hv : (d.votes != 0) = true <;>
      by_cases hf : truthyI d.favorites = true <;>
        cases b <;>
          simp [hv, hf, specScoreWrap, ← String.append_assoc]
  refine ⟨?_, ?_, ?_, hstruct⟩
  · constructor
    · intro he
      by_contra hc
      rw [not_and_or] at hc
      have hsome : ∃ n, scoreTenths d = some n := by
        rcases hc with hc | hc <;> rw [Bool.not_eq_false] at hc
        · exact ⟨d.average_score.getD 0, by simp [scoreTenths, hc]⟩
        · by_cases ha : truthyI d.average_score = true
          · exact ⟨d.average_score.getD 0, by simp [scoreTenths, ha]⟩
          · rw [Bool.not_eq_true] at ha
            exact ⟨d.mean_score.getD 0, by simp [scoreTenths, ha, hc]⟩
      obtain ⟨n, hn⟩ := hsome
      rw [hstruct n hn] at he
      revert he
      cases b <;>
        simp only [specScoreWrap, if_true, if_false, Bool.false_eq_true] <;>
        exact append_ne_empty_right _ _ (by decide)
    · intro ⟨ha, hm⟩
      simp [get_score, scoreTenths, ha, hm]
  · intro ha
    simp [displayedScore, scoreTenths, ha]
  · intro ha hm
    simp [displayedScore, scoreTenths, ha, hm]

/-- Claim C7 witness. -/
theorem C7_score_witness :
    get_score { emptyEntry with mean_score := some 85 } true =
      specScoreWrap true ("⭐ " ++ showTenths 85 ++ "/10" ++ "" ++ "") := by
  have h := ((C7_score { emptyEntry with mean_score := some 85 } true).2.2.2)
    85 (by decide)
  simpa using h

/-- Claim C8 witness. -/
theorem C8_links_trailer_witness :
    get_links { emptyEntry with trailer := some ("youtube", "xyz") } true =
      specLinksWrap true
        (get_link ("https://www.youtube.com/watch?v=" ++ "xyz")
          (trailerText true) true ++ "") := by
  have h := (C8_links_trailer
    { emptyEntry with trailer := some ("youtube", "xyz") } true).2.2.1
    "youtube" "xyz" rfl (by decide)
  simpa using h

end AniManga

